import Mathlib

/-
  Verification of the deadline/reminder state machine of the
  daemon-disqualifier repository (src/helpers/update-tasks.ts).

  We shallow-embed the decision logic: instants are integers, the
  external world (GitHub issue fetch, raw activity events, payload
  assignees) is passed in explicitly, and the side effects performed by
  an evaluation are collected as a trace of actions.
-/

namespace DaemonDisqualifier

/-- Configuration thresholds, as read from context.config in
update-tasks.ts (unassignUserThreshold, sendRemindersThreshold). -/
structure Config where
  unassignUserThreshold : Int
  sendRemindersThreshold : Int
deriving DecidableEq

/-- One row of the watched-repositories store: url, deadline,
last_check, last_reminder (absent when no reminder was sent). -/
structure IssueRow where
  url : String
  deadline : Int
  last_check : Int
  last_reminder : Option Int
deriving DecidableEq

/-- An activity event returned by octokit.rest.issues.listEvents:
actor login and created_at timestamp. -/
structure ActivityEvent where
  actor : String
  created_at : Int
deriving DecidableEq

/-- Outcome of the octokit.issues.get call made by getGithubIssue:
either the call throws (network or API error) or it returns an issue
carrying a list of assignee logins. -/
inductive GithubIssueResult where
  | fetchError
  | fetched (assignees : List String)
deriving DecidableEq

/-- The object literal passed to supabase.repositories.upsert. The
lastReminder field is an Option because the activity-branch upsert on
line 67 omits that field entirely, while the reminder upsert on lines
38-43 includes it. -/
structure UpsertPayload where
  url : String
  deadline : Int
  lastReminder : Option Int
  lastCheck : Int
deriving DecidableEq

/-- A side effect performed during one evaluation: a store upsert, a
store delete, a reminder comment, or an assignee removal. -/
inductive Action where
  | upsert (p : UpsertPayload)
  | delete (url : String)
  | postComment (url : String) (assignees : List String)
  | removeAssignees (url : String) (assignees : List String)
deriving DecidableEq

/-- getGithubIssue (lines 158-172): the try/catch around
octokit.issues.get returns null on failure, otherwise the issue data.
We keep only the assignee logins, which is all the callers use. -/
def getGithubIssue : GithubIssueResult → Option (List String)
  | GithubIssueResult.fetchError => none
  | GithubIssueResult.fetched a => some a

/-- remindAssignees (lines 117-137): fetch the issue; if it is null or
has no assignees, warn and return false; otherwise post one comment
mentioning all assignees and return true. The trace of actions is
returned next to the boolean result. -/
def remindAssignees (issue : IssueRow) (world : GithubIssueResult) :
    List Action × Bool :=
  match getGithubIssue world with
  | none => ([], false)
  | some assignees =>
    if assignees.length = 0 then ([], false)
    else ([Action.postComment issue.url assignees], true)

/-- removeIdleAssignees (lines 139-156): fetch the issue; if it is null
or has no assignees, warn and return false; otherwise remove all
assignees and return true. -/
def removeIdleAssignees (issue : IssueRow) (world : GithubIssueResult) :
    List Action × Bool :=
  match getGithubIssue world with
  | none => ([], false)
  | some assignees =>
    if assignees.length = 0 then ([], false)
    else ([Action.removeAssignees issue.url assignees], true)

/-- unassignUserFromIssue (lines 6-21): when unassignUserThreshold <= 0
only log; otherwise call removeIdleAssignees and, on success, delete
the store row. -/
def unassignUserFromIssue (cfg : Config) (issue : IssueRow)
    (world : GithubIssueResult) : List Action :=
  if cfg.unassignUserThreshold ≤ 0 then []
  else
    let r := removeIdleAssignees issue world
    if r.2 then r.1 ++ [Action.delete issue.url] else r.1

/-- remindAssigneesForIssue (lines 23-46): when sendRemindersThreshold
<= 0 only log; otherwise, when last_reminder is unset and
remindAssignees succeeds, upsert the row with the old deadline, a fresh
lastReminder and a fresh lastCheck. -/
def remindAssigneesForIssue (cfg : Config) (now : Int) (issue : IssueRow)
    (world : GithubIssueResult) : List Action :=
  if cfg.sendRemindersThreshold ≤ 0 then []
  else
    match issue.last_reminder with
    | some _ => []
    | none =>
      let r := remindAssignees issue world
      if r.2 then
        r.1 ++ [Action.upsert ⟨issue.url, issue.deadline, some now, now⟩]
      else r.1

/-- getAssigneesActivityForIssue (lines 98-115): the filter applied to
each page of fetched events keeps an event when the context payload
issue assignees contain the actor of the event AND its created_at is at
or after the row last_check. When payload.issue or its assignees are
undefined the optional chain makes the condition falsy for every
event. -/
def getAssigneesActivityForIssue (payloadAssignees : Option (List String))
    (issue : IssueRow) (events : List ActivityEvent) : List ActivityEvent :=
  events.filter fun o =>
    (match payloadAssignees with
     | some assignees => assignees.any fun assignee => assignee = o.actor
     | none => false)
    && decide (issue.last_check ≤ o.created_at)

/-- updateReminders (lines 48-79): fetch the activity signal (the fetch
itself can fail, which makes the whole evaluation fail); when the
signal is non-empty, shift the deadline forward by now - last_check and
upsert; otherwise run the disqualification check, then the reminder
check, then no-op. -/
def updateReminders (cfg : Config) (now : Int) (issue : IssueRow)
    (payloadAssignees : Option (List String))
    (rawEvents : Except String (List ActivityEvent))
    (world : GithubIssueResult) : Except String (List Action) :=
  match rawEvents with
  | Except.error e => Except.error e
  | Except.ok events =>
    let activity := getAssigneesActivityForIssue payloadAssignees issue events
    let deadlineWithThreshold := issue.deadline + cfg.unassignUserThreshold
    let reminderWithThreshold := issue.deadline + cfg.sendRemindersThreshold
    if activity.length ≠ 0 then
      let timeDiff := now - issue.last_check
      let newDeadline := issue.deadline + timeDiff
      Except.ok [Action.upsert ⟨issue.url, newDeadline, none, now⟩]
    else if deadlineWithThreshold ≤ now then
      Except.ok (unassignUserFromIssue cfg issue world)
    else if reminderWithThreshold ≤ now then
      Except.ok (remindAssigneesForIssue cfg now issue world)
    else
      Except.ok []

/-- The external inputs one item evaluation consumes. -/
structure ItemEnv where
  payloadAssignees : Option (List String)
  rawEvents : Except String (List ActivityEvent)
  world : GithubIssueResult

/-- The for-of loop of updateTasks (lines 92-94): each watched row is
evaluated with await and there is no try/catch, so a rejection from one
evaluation propagates and the remaining rows are not evaluated. -/
def runWatched (cfg : Config) (now : Int) :
    List (IssueRow × ItemEnv) → Except String (List Action)
  | [] => Except.ok []
  | (issue, env) :: rest =>
    match updateReminders cfg now issue env.payloadAssignees
        env.rawEvents env.world with
    | Except.error e => Except.error e
    | Except.ok acts =>
      match runWatched cfg now rest with
      | Except.error e => Except.error e
      | Except.ok more => Except.ok (acts ++ more)

/-- updateTasks (lines 81-96): return false when the watched list is
empty, otherwise evaluate every row in order and return true. -/
def updateTasks (cfg : Config) (now : Int)
    (watched : List (IssueRow × ItemEnv)) :
    Except String (Bool × List Action) :=
  if watched.length = 0 then Except.ok (false, [])
  else
    match runWatched cfg now watched with
    | Except.error e => Except.error e
    | Except.ok acts => Except.ok (true, acts)

/-- Effect of a keyed upsert on the existing row: every field present
in the payload overwrites the stored one; the lastReminder column is
only written when the payload carries that field. -/
def applyUpsert (issue : IssueRow) (p : UpsertPayload) : IssueRow :=
  { url := p.url
    deadline := p.deadline
    last_check := p.lastCheck
    last_reminder :=
      match p.lastReminder with
      | some r => some r
      | none => issue.last_reminder }

/-- Number of reminder comments in a trace. -/
def countReminders (acts : List Action) : Nat :=
  (acts.filter fun a =>
    match a with
    | Action.postComment _ _ => true
    | _ => false).length

/-- Number of reminder comments in an evaluation result (zero when the
evaluation failed, since a failed evaluation posted nothing after the
point of failure and our traces are produced atomically). -/
def countRemindersE : Except String (List Action) → Nat
  | Except.error _ => 0
  | Except.ok acts => countReminders acts

/-- Activity signal as the spec words it: exactly the fetched events
whose actor matches a currently-assigned identity ON THE WATCHED ITEM
and whose timestamp is at or after the item last_check. Used to compare
against getAssigneesActivityForIssue, which instead consults the
webhook payload issue assignees. -/
def specActivitySignal (itemAssignees : List String) (lastCheck : Int)
    (events : List ActivityEvent) : List ActivityEvent :=
  events.filter fun o =>
    itemAssignees.contains o.actor && decide (lastCheck ≤ o.created_at)

/-- The payload upserted by a successful reminder dispatch. -/
def reminderUpsert (issue : IssueRow) (now : Int) : UpsertPayload :=
  ⟨issue.url, issue.deadline, some now, now⟩

/- Helper lemmas shared by several claims. -/

lemma countReminders_nil : countReminders [] = 0 := rfl

lemma countReminders_unassign (cfg : Config) (issue : IssueRow)
    (world : GithubIssueResult) :
    countReminders (unassignUserFromIssue cfg issue world) = 0 := by
  cases world with
  | fetchError =>
    simp only [unassignUserFromIssue, removeIdleAssignees, getGithubIssue]
    split <;> rfl
  | fetched a =>
    simp only [unassignUserFromIssue, removeIdleAssignees, getGithubIssue]
    by_cases hz : cfg.unassignUserThreshold ≤ 0
    · rw [if_pos hz]; rfl
    · rw [if_neg hz]
      by_cases ha : a.length = 0
      · rw [if_pos ha]; rfl
      · rw [if_neg ha]; rfl

lemma remindForIssue_nil_of_set (cfg : Config) (now : Int) (issue : IssueRow)
    (world : GithubIssueResult) (t : Int) (h : issue.last_reminder = some t) :
    remindAssigneesForIssue cfg now issue world = [] := by
  unfold remindAssigneesForIssue
  rw [h]
  split <;> rfl

lemma removeIdle_false_nil (issue : IssueRow) (world : GithubIssueResult)
    (h : (removeIdleAssignees issue world).2 = false) :
    (removeIdleAssignees issue world).1 = [] := by
  unfold removeIdleAssignees getGithubIssue at *
  cases world with
  | fetchError => rfl
  | fetched a =>
    by_cases ha : a.length = 0
    · simp [ha]
    · simp [ha] at h

lemma delete_mem_unassign_iff (cfg : Config) (issue : IssueRow)
    (world : GithubIssueResult) :
    Action.delete issue.url ∈ unassignUserFromIssue cfg issue world ↔
      0 < cfg.unassignUserThreshold ∧ (removeIdleAssignees issue world).2 = true := by
  unfold unassignUserFromIssue
  by_cases hz : cfg.unassignUserThreshold ≤ 0
  · simp [hz, not_lt.mpr hz]
  · by_cases hs : (removeIdleAssignees issue world).2 = true
    · simp [hz, hs, not_le.mp hz]
    · have hn := removeIdle_false_nil issue world (by simpa using hs)
      simp [hz, hs, hn]

lemma delete_not_mem_remind (cfg : Config) (now : Int) (issue : IssueRow)
    (world : GithubIssueResult) (u : String) :
    Action.delete u ∉ remindAssigneesForIssue cfg now issue world := by
  unfold remindAssigneesForIssue remindAssignees getGithubIssue
  split
  · simp
  · split
    · simp
    · cases world <;> simp <;> split <;> simp

lemma unassign_nil_of_noassignees (cfg : Config) (issue : IssueRow) :
    unassignUserFromIssue cfg issue (GithubIssueResult.fetched []) = [] := by
  unfold unassignUserFromIssue removeIdleAssignees getGithubIssue
  split <;> simp

lemma remind_nil_of_noassignees (cfg : Config) (now : Int) (issue : IssueRow) :
    remindAssigneesForIssue cfg now issue (GithubIssueResult.fetched []) = [] := by
  unfold remindAssigneesForIssue remindAssignees getGithubIssue
  split
  · rfl
  · split
    · rfl
    · simp

lemma unassign_nil_of_fetchError (cfg : Config) (issue : IssueRow) :
    unassignUserFromIssue cfg issue GithubIssueResult.fetchError = [] := by
  unfold unassignUserFromIssue removeIdleAssignees getGithubIssue
  split <;> simp

lemma remind_nil_of_fetchError (cfg : Config) (now : Int) (issue : IssueRow) :
    remindAssigneesForIssue cfg now issue GithubIssueResult.fetchError = [] := by
  unfold remindAssigneesForIssue remindAssignees getGithubIssue
  split
  · rfl
  · split
    · rfl
    · simp

lemma updateReminders_activity (cfg : Config) (now : Int) (issue : IssueRow)
    (pa : Option (List String)) (evs : List ActivityEvent)
    (world : GithubIssueResult)
    (hact : getAssigneesActivityForIssue pa issue evs ≠ []) :
    updateReminders cfg now issue pa (Except.ok evs) world =
      Except.ok [Action.upsert
        ⟨issue.url, issue.deadline + (now - issue.last_check), none, now⟩] := by
  have h : (getAssigneesActivityForIssue pa issue evs).length ≠ 0 := by
    simp [List.length_eq_zero, hact]
  simp only [updateReminders]
  rw [if_pos h]

lemma updateReminders_no_activity (cfg : Config) (now : Int) (issue : IssueRow)
    (pa : Option (List String)) (evs : List ActivityEvent)
    (world : GithubIssueResult)
    (hact : getAssigneesActivityForIssue pa issue evs = []) :
    updateReminders cfg now issue pa (Except.ok evs) world =
      if issue.deadline + cfg.unassignUserThreshold ≤ now then
        Except.ok (unassignUserFromIssue cfg issue world)
      else if issue.deadline + cfg.sendRemindersThreshold ≤ now then
        Except.ok (remindAssigneesForIssue cfg now issue world)
      else Except.ok [] := by
  simp only [updateReminders, hact, List.length_nil, ne_eq,
    not_true_eq_false, if_false]

/-
  C1.  Configuration and inputs for the zero-disqualify-threshold
  scenario: disqualifyThreshold = 0, reminderThreshold = 60, the row is
  1000 time units past its deadline, no qualifying activity, no prior
  reminder, assignees present, so the claim expects a reminder to be
  dispatched; the code dispatches nothing.
-/

def c1cfg : Config := ⟨0, 60⟩

def c1issue : IssueRow := ⟨"https://github.com/o/r/issues/1", 0, -5, none⟩

/-- C1 counterexample: with disqualifyThreshold = 0, now = 1000 far
past deadline = 0, empty activity, reminderThreshold = 60 > 0, a due
and unsent reminder, the evaluation returns an EMPTY trace: line 69
takes the disqualification branch (deadline + 0 <= now), whose internal
guard only logs, and the reminder check on line 71 is never reached, so
no reminder is dispatched, contrary to the claim. -/
theorem c1_counterexample :
    c1cfg.unassignUserThreshold = 0
    ∧ c1issue.deadline + c1cfg.sendRemindersThreshold ≤ 1000
    ∧ c1issue.last_reminder = none
    ∧ 0 < c1cfg.sendRemindersThreshold
    ∧ updateReminders c1cfg 1000 c1issue (some ["alice"]) (Except.ok [])
        (GithubIssueResult.fetched ["alice"]) = Except.ok [] :=
  ⟨rfl, by decide, rfl, by decide, rfl⟩

/-- C1 (amended): if disqualifyThreshold = 0 and now is at or past the
deadline with an empty activity signal, the evaluation takes the
disqualification branch, whose internal guard suppresses unassignment
and deletion; the reminder check is never reached, so no reminder is
dispatched and the whole trace is empty. -/
theorem c1_zero_threshold_swallows_reminder (cfg : Config) (now : Int)
    (issue : IssueRow) (pa : Option (List String))
    (evs : List ActivityEvent) (world : GithubIssueResult)
    (hz : cfg.unassignUserThreshold = 0)
    (hact : getAssigneesActivityForIssue pa issue evs = [])
    (hpast : issue.deadline ≤ now) :
    updateReminders cfg now issue pa (Except.ok evs) world =
      Except.ok [] := by
  rw [updateReminders_no_activity cfg now issue pa evs world hact]
  rw [if_pos (by rw [hz, add_zero]; exact hpast)]
  unfold unassignUserFromIssue
  rw [if_pos (by rw [hz])]

/-- C1 witness. -/
theorem c1_zero_threshold_swallows_reminder_witness :
    updateReminders c1cfg 1000 c1issue (some ["bob"]) (Except.ok [])
      (GithubIssueResult.fetched ["alice"]) = Except.ok [] :=
  c1_zero_threshold_swallows_reminder c1cfg 1000 c1issue (some ["bob"]) []
    (GithubIssueResult.fetched ["alice"]) rfl rfl (by decide)

/-- C2: whenever the filtered activity signal is non-empty, the
evaluation upserts deadline + (now - last_check) as the new deadline
and now as the new last_check, performing no other action, with no
hypothesis on either threshold: the activity branch takes precedence
over both threshold checks. -/
theorem c2_activity_extends_deadline (cfg : Config) (now : Int)
    (issue : IssueRow) (pa : Option (List String))
    (evs : List ActivityEvent) (world : GithubIssueResult)
    (hact : getAssigneesActivityForIssue pa issue evs ≠ []) :
    updateReminders cfg now issue pa (Except.ok evs) world =
      Except.ok [Action.upsert
        ⟨issue.url, issue.deadline + (now - issue.last_check), none, now⟩] :=
  updateReminders_activity cfg now issue pa evs world hact

def c2cfg : Config := ⟨120, 60⟩

def c2issue : IssueRow := ⟨"https://github.com/o/r/issues/1", 0, -5, none⟩

/-- C2 witness: an event by assignee alice at t = 10 with last_check
at -5 and now = 15 moves the deadline from 0 to 20 even though now is
past deadline + both thresholds being irrelevant here. -/
theorem c2_activity_extends_deadline_witness :
    updateReminders c2cfg 15 c2issue (some ["alice"])
      (Except.ok [⟨"alice", 10⟩]) (GithubIssueResult.fetched ["alice"]) =
      Except.ok [Action.upsert ⟨c2issue.url, 20, none, 15⟩] := by
  have h := c2_activity_extends_deadline c2cfg 15 c2issue (some ["alice"])
    [⟨"alice", 10⟩] (GithubIssueResult.fetched ["alice"]) (by decide)
  simpa using h

/-- The payload upserted by the Active-with-activity branch (line 67):
url, extended deadline, lastCheck, and no lastReminder field. -/
def activityUpsert (issue : IssueRow) (now : Int) : UpsertPayload :=
  ⟨issue.url, issue.deadline + (now - issue.last_check), none, now⟩

/-- C10: the Active-with-activity upsert carries exactly the fields
url, deadline and lastCheck (its lastReminder field is absent), so
applying it to the stored row leaves last_reminder untouched: the
engine never clears last_reminder when activity pushes the deadline
forward. -/
theorem c10_activity_upsert_omits_lastreminder (cfg : Config) (now : Int)
    (issue : IssueRow) (pa : Option (List String))
    (evs : List ActivityEvent) (world : GithubIssueResult)
    (hact : getAssigneesActivityForIssue pa issue evs ≠ []) :
    updateReminders cfg now issue pa (Except.ok evs) world =
      Except.ok [Action.upsert (activityUpsert issue now)]
    ∧ (activityUpsert issue now).lastReminder = none
    ∧ (applyUpsert issue (activityUpsert issue now)).last_reminder =
        issue.last_reminder :=
  ⟨updateReminders_activity cfg now issue pa evs world hact, rfl, rfl⟩

def c10issue : IssueRow := ⟨"https://github.com/o/r/issues/1", 0, -5, some 3⟩

/-- C10 witness: a row whose last_reminder is already set keeps it
after the activity-branch upsert. -/
theorem c10_activity_upsert_omits_lastreminder_witness :
    updateReminders c2cfg 15 c10issue (some ["alice"])
      (Except.ok [⟨"alice", 10⟩]) (GithubIssueResult.fetched ["alice"]) =
      Except.ok [Action.upsert (activityUpsert c10issue 15)]
    ∧ (activityUpsert c10issue 15).lastReminder = none
    ∧ (applyUpsert c10issue (activityUpsert c10issue 15)).last_reminder =
        some 3 :=
  c10_activity_upsert_omits_lastreminder c2cfg 15 c10issue (some ["alice"])
    [⟨"alice", 10⟩] (GithubIssueResult.fetched ["alice"]) (by decide)

/-
  C3.  The driver loop of updateTasks awaits each row in order with no
  try/catch, so one rejected evaluation aborts the loop.
-/

def c3bad : IssueRow := ⟨"https://github.com/o/r/issues/1", 0, 0, none⟩

def c3badEnv : ItemEnv :=
  ⟨some ["alice"], Except.error "boom", GithubIssueResult.fetched ["alice"]⟩

def c3good : IssueRow := ⟨"https://github.com/o/r/issues/2", 0, -5, none⟩

def c3goodEnv : ItemEnv :=
  ⟨some ["alice"], Except.ok [⟨"alice", 10⟩],
    GithubIssueResult.fetched ["alice"]⟩

/-- C3 counterexample: a batch of two rows where the first evaluation
fails (its activity fetch rejects) returns that error and performs
nothing for the second row, even though the second row evaluated alone
produces an upsert; the for-of loop in updateTasks (lines 92-94) has no
per-item error isolation, contrary to the claim. -/
theorem c3_counterexample :
    runWatched c2cfg 15 [(c3bad, c3badEnv), (c3good, c3goodEnv)] =
      Except.error "boom"
    ∧ updateReminders c2cfg 15 c3good c3goodEnv.payloadAssignees
        c3goodEnv.rawEvents c3goodEnv.world =
        Except.ok [Action.upsert ⟨c3good.url, 20, none, 15⟩] :=
  ⟨rfl, rfl⟩

/-- C3 (amended): an error thrown during one row evaluation aborts the
whole pass with that error; the rows after it in the batch are not
evaluated and contribute nothing to the trace. -/
theorem c3_error_aborts_batch (cfg : Config) (now : Int) (issue : IssueRow)
    (env : ItemEnv) (rest : List (IssueRow × ItemEnv)) (msg : String)
    (h : updateReminders cfg now issue env.payloadAssignees env.rawEvents
        env.world = Except.error msg) :
    runWatched cfg now ((issue, env) :: rest) = Except.error msg := by
  unfold runWatched
  rw [h]

/-- C3 witness. -/
theorem c3_error_aborts_batch_witness :
    runWatched c2cfg 15 [(c3bad, c3badEnv), (c3good, c3goodEnv)] =
      Except.error "boom" :=
  c3_error_aborts_batch c2cfg 15 c3bad c3badEnv [(c3good, c3goodEnv)]
    "boom" rfl

/-- C4: with empty activity, when now is at or past both
deadline + disqualifyThreshold and deadline + reminderThreshold, the
evaluation runs the unassignment routine and its trace, which contains
no reminder comment, is the whole result: the disqualification check on
line 69 is evaluated strictly before the reminder check on line 71.
When the threshold is positive and assignees exist, the trace really
does remove them. -/
theorem c4_disqualification_precedes_reminder (cfg : Config) (now : Int)
    (issue : IssueRow) (pa : Option (List String))
    (evs : List ActivityEvent) (world : GithubIssueResult)
    (hact : getAssigneesActivityForIssue pa issue evs = [])
    (hd : issue.deadline + cfg.unassignUserThreshold ≤ now)
    (hr : issue.deadline + cfg.sendRemindersThreshold ≤ now) :
    updateReminders cfg now issue pa (Except.ok evs) world =
      Except.ok (unassignUserFromIssue cfg issue world)
    ∧ countRemindersE
        (updateReminders cfg now issue pa (Except.ok evs) world) = 0
    ∧ (∀ a, 0 < cfg.unassignUserThreshold →
        world = GithubIssueResult.fetched a → a ≠ [] →
        Action.removeAssignees issue.url a ∈
          unassignUserFromIssue cfg issue world) := by
  have heq : updateReminders cfg now issue pa (Except.ok evs) world =
      Except.ok (unassignUserFromIssue cfg issue world) := by
    rw [updateReminders_no_activity cfg now issue pa evs world hact,
      if_pos hd]
  refine ⟨heq, ?_, ?_⟩
  · rw [heq]
    exact countReminders_unassign cfg issue world
  · intro a hpos hw ha
    subst hw
    unfold unassignUserFromIssue removeIdleAssignees getGithubIssue
    rw [if_neg (not_le.mpr hpos)]
    have hlen : ¬a.length = 0 := by
      simpa [List.length_eq_zero] using ha
    simp [hlen]

def c4cfg : Config := ⟨120, 60⟩

def c4issue : IssueRow := ⟨"https://github.com/o/r/issues/1", 0, 0, none⟩

/-- C4 witness: at now = 150, past both thresholds, the result is the
unassignment trace (remove alice, delete the row), with no reminder. -/
theorem c4_disqualification_precedes_reminder_witness :
    updateReminders c4cfg 150 c4issue (some ["alice"]) (Except.ok [])
      (GithubIssueResult.fetched ["alice"]) =
      Except.ok (unassignUserFromIssue c4cfg c4issue
        (GithubIssueResult.fetched ["alice"]))
    ∧ countRemindersE (updateReminders c4cfg 150 c4issue (some ["alice"])
        (Except.ok []) (GithubIssueResult.fetched ["alice"])) = 0
    ∧ (∀ a, 0 < c4cfg.unassignUserThreshold →
        GithubIssueResult.fetched ["alice"] = GithubIssueResult.fetched a →
        a ≠ [] →
        Action.removeAssignees c4issue.url a ∈
          unassignUserFromIssue c4cfg c4issue
            (GithubIssueResult.fetched ["alice"])) :=
  c4_disqualification_precedes_reminder c4cfg 150 c4issue (some ["alice"])
    [] (GithubIssueResult.fetched ["alice"]) rfl (by decide) (by decide)

/-- C6 counterexample: a reminder-due row (deadline 0, reminder
threshold 10, now 100, below the disqualify threshold 1000, no prior
reminder) whose issue fetch fails: the evaluation returns Except.ok []
instead of propagating an error — getGithubIssue (lines 161-171)
catches the failure and returns null, remindAssignees takes the
missing-assignees path and returns false, and the pass for the item
completes normally with no write, contrary to the claim that the
failure propagates and is not converted into a no-assignees outcome. -/
theorem c6_counterexample :
    (⟨1000, 10⟩ : Config).sendRemindersThreshold = 10
    ∧ (0 : Int) + (10 : Int) ≤ 100
    ∧ updateReminders ⟨1000, 10⟩ 100
        ⟨"https://github.com/o/r/issues/1", 0, 0, none⟩ (some ["alice"])
        (Except.ok []) GithubIssueResult.fetchError = Except.ok [] :=
  ⟨rfl, by decide, rfl⟩

/-- C6 (amended): when the issue fetch used by the action executors
fails, getGithubIssue catches the error and returns null; both
executors then treat the failure exactly like a no-assignees outcome:
the evaluation finishes without error and with an empty trace (no
store write, no comment, no removal), for every branch the empty
activity signal can reach. -/
theorem c6_resolver_failure_swallowed (cfg : Config) (now : Int)
    (issue : IssueRow) (pa : Option (List String))
    (evs : List ActivityEvent)
    (hact : getAssigneesActivityForIssue pa issue evs = []) :
    updateReminders cfg now issue pa (Except.ok evs)
      GithubIssueResult.fetchError = Except.ok [] := by
  rw [updateReminders_no_activity cfg now issue pa evs
    GithubIssueResult.fetchError hact]
  by_cases hd : issue.deadline + cfg.unassignUserThreshold ≤ now
  · rw [if_pos hd, unassign_nil_of_fetchError]
  · rw [if_neg hd]
    by_cases hr : issue.deadline + cfg.sendRemindersThreshold ≤ now
    · rw [if_pos hr, remind_nil_of_fetchError]
    · rw [if_neg hr]

/-- C6 witness. -/
theorem c6_resolver_failure_swallowed_witness :
    updateReminders ⟨1000, 10⟩ 100
      ⟨"https://github.com/o/r/issues/1", 0, 0, none⟩ (some ["alice"])
      (Except.ok []) GithubIssueResult.fetchError = Except.ok [] :=
  c6_resolver_failure_swallowed ⟨1000, 10⟩ 100
    ⟨"https://github.com/o/r/issues/1", 0, 0, none⟩ (some ["alice"]) [] rfl

/-- C7: when a reminder dispatch succeeds (reminder due, threshold
positive, below the disqualify instant, no prior reminder, assignees
present), the evaluation posts one comment and upserts lastReminder =
now and lastCheck = now while the upserted deadline equals the stored
deadline. -/
theorem c7_reminder_upsert_keeps_deadline (cfg : Config) (now : Int)
    (issue : IssueRow) (pa : Option (List String))
    (evs : List ActivityEvent) (a : List String)
    (hact : getAssigneesActivityForIssue pa issue evs = [])
    (hd : now < issue.deadline + cfg.unassignUserThreshold)
    (hr : issue.deadline + cfg.sendRemindersThreshold ≤ now)
    (hpos : 0 < cfg.sendRemindersThreshold)
    (hnone : issue.last_reminder = none)
    (ha : a ≠ []) :
    updateReminders cfg now issue pa (Except.ok evs)
      (GithubIssueResult.fetched a) =
      Except.ok [Action.postComment issue.url a,
        Action.upsert (reminderUpsert issue now)]
    ∧ (reminderUpsert issue now).deadline = issue.deadline
    ∧ (reminderUpsert issue now).lastReminder = some now
    ∧ (reminderUpsert issue now).lastCheck = now := by
  refine ⟨?_, rfl, rfl, rfl⟩
  rw [updateReminders_no_activity cfg now issue pa evs
    (GithubIssueResult.fetched a) hact, if_neg (not_le.mpr hd), if_pos hr]
  unfold remindAssigneesForIssue remindAssignees getGithubIssue
  rw [if_neg (not_le.mpr hpos), hnone]
  have hlen : ¬a.length = 0 := by
    simpa [List.length_eq_zero] using ha
  simp [hlen, reminderUpsert]

def c7cfg : Config := ⟨120, 60⟩

def c7issue : IssueRow := ⟨"https://github.com/o/r/issues/1", 0, 0, none⟩

/-- C7 witness: at now = 90 (past reminder instant 60, before
disqualify instant 120) the dispatch posts a comment and upserts
deadline 0 (unchanged), lastReminder 90, lastCheck 90. -/
theorem c7_reminder_upsert_keeps_deadline_witness :
    updateReminders c7cfg 90 c7issue (some ["alice"]) (Except.ok [])
      (GithubIssueResult.fetched ["alice"]) =
      Except.ok [Action.postComment c7issue.url ["alice"],
        Action.upsert (reminderUpsert c7issue 90)]
    ∧ (reminderUpsert c7issue 90).deadline = c7issue.deadline
    ∧ (reminderUpsert c7issue 90).lastReminder = some 90
    ∧ (reminderUpsert c7issue 90).lastCheck = 90 :=
  c7_reminder_upsert_keeps_deadline c7cfg 90 c7issue (some ["alice"]) []
    ["alice"] rfl (by decide) (by decide) (by decide) rfl (by decide)

/-
  C9.  The activity filter consults payload.issue.assignees — the
  assignees of the issue carried by the triggering webhook payload —
  while fetching the event list of the watched row URL. The spec
  requires filtering by the assignees of the watched item itself.
-/

def c9issue : IssueRow := ⟨"https://github.com/o/r/issues/2", 0, 0, none⟩

/-- C9: the watched item at issues/2 is assigned to alice and alice
produced an event at t = 10 >= last_check = 0, so the claimed signal
(specActivitySignal, worded from the spec) contains the event; but the
code filter consults the webhook payload issue assignees (bob here),
so getAssigneesActivityForIssue drops the event. The code contradicts
the intent visible in its own name and call shape (it parses the
watched row URL for the event query yet filters by the unrelated
payload issue), so the activity of an assignee on any watched item
other than the payload one is invisible to the engine. -/
theorem c9_filter_uses_payload_not_item :
    getAssigneesActivityForIssue (some ["bob"]) c9issue [⟨"alice", 10⟩] = []
    ∧ specActivitySignal ["alice"] c9issue.last_check [⟨"alice", 10⟩] =
        [⟨"alice", 10⟩] :=
  ⟨rfl, rfl⟩

lemma countRemindersE_no_dispatch_when_set (cfg : Config) (now : Int)
    (issue : IssueRow) (pa : Option (List String))
    (evs : List ActivityEvent) (world : GithubIssueResult) (t : Int)
    (hact : getAssigneesActivityForIssue pa issue evs = [])
    (hset : issue.last_reminder = some t) :
    countRemindersE
      (updateReminders cfg now issue pa (Except.ok evs) world) = 0 := by
  rw [updateReminders_no_activity cfg now issue pa evs world hact]
  by_cases hd : issue.deadline + cfg.unassignUserThreshold ≤ now
  · rw [if_pos hd]
    exact countReminders_unassign cfg issue world
  · rw [if_neg hd]
    by_cases hr : issue.deadline + cfg.sendRemindersThreshold ≤ now
    · rw [if_pos hr, remindForIssue_nil_of_set cfg now issue world t hset]
      rfl
    · rw [if_neg hr]
      rfl

/-- C5: for a row in the ReminderDue window (reminder instant <= now <
disqualify instant, positive reminder threshold) with no prior reminder
and with assignees present, the evaluation dispatches exactly one
reminder comment and upserts lastReminder = now; a second evaluation of
the persisted row, with no new qualifying activity, dispatches no
reminder whatever its instant and world. -/
theorem c5_reminder_dispatched_once (cfg : Config) (now now2 : Int)
    (issue : IssueRow) (pa pa2 : Option (List String))
    (evs evs2 : List ActivityEvent) (a : List String)
    (world2 : GithubIssueResult)
    (hact : getAssigneesActivityForIssue pa issue evs = [])
    (hpos : 0 < cfg.sendRemindersThreshold)
    (hr : issue.deadline + cfg.sendRemindersThreshold ≤ now)
    (hd : now < issue.deadline + cfg.unassignUserThreshold)
    (hnone : issue.last_reminder = none)
    (ha : a ≠ [])
    (hact2 : getAssigneesActivityForIssue pa2
        (applyUpsert issue (reminderUpsert issue now)) evs2 = []) :
    updateReminders cfg now issue pa (Except.ok evs)
        (GithubIssueResult.fetched a) =
      Except.ok [Action.postComment issue.url a,
        Action.upsert (reminderUpsert issue now)]
    ∧ countRemindersE (updateReminders cfg now issue pa (Except.ok evs)
        (GithubIssueResult.fetched a)) = 1
    ∧ (applyUpsert issue (reminderUpsert issue now)).last_reminder =
        some now
    ∧ countRemindersE (updateReminders cfg now2
        (applyUpsert issue (reminderUpsert issue now)) pa2 (Except.ok evs2)
        world2) = 0 := by
  have h1 : updateReminders cfg now issue pa (Except.ok evs)
      (GithubIssueResult.fetched a) =
      Except.ok [Action.postComment issue.url a,
        Action.upsert (reminderUpsert issue now)] := by
    rw [updateReminders_no_activity cfg now issue pa evs
      (GithubIssueResult.fetched a) hact, if_neg (not_le.mpr hd),
      if_pos hr]
    unfold remindAssigneesForIssue remindAssignees getGithubIssue
    rw [if_neg (not_le.mpr hpos), hnone]
    have hlen : ¬a.length = 0 := by
      simpa [List.length_eq_zero] using ha
    simp [hlen, reminderUpsert]
  refine ⟨h1, ?_, rfl, ?_⟩
  · rw [h1]
    rfl
  · exact countRemindersE_no_dispatch_when_set cfg now2
      (applyUpsert issue (reminderUpsert issue now)) pa2 evs2 world2 now
      hact2 rfl

def c5cfg : Config := ⟨120, 60⟩

def c5issue : IssueRow := ⟨"https://github.com/o/r/issues/1", 0, 0, none⟩

/-- C5 witness: first evaluation at now = 90 dispatches one reminder
and persists lastReminder = 90; re-evaluating the persisted row at
now = 100 with no new activity dispatches none. -/
theorem c5_reminder_dispatched_once_witness :
    updateReminders c5cfg 90 c5issue (some ["alice"]) (Except.ok [])
        (GithubIssueResult.fetched ["alice"]) =
      Except.ok [Action.postComment c5issue.url ["alice"],
        Action.upsert (reminderUpsert c5issue 90)]
    ∧ countRemindersE (updateReminders c5cfg 90 c5issue (some ["alice"])
        (Except.ok []) (GithubIssueResult.fetched ["alice"])) = 1
    ∧ (applyUpsert c5issue (reminderUpsert c5issue 90)).last_reminder =
        some 90
    ∧ countRemindersE (updateReminders c5cfg 100
        (applyUpsert c5issue (reminderUpsert c5issue 90)) (some ["alice"])
        (Except.ok []) (GithubIssueResult.fetched ["alice"])) = 0 :=
  c5_reminder_dispatched_once c5cfg 90 100 c5issue (some ["alice"])
    (some ["alice"]) [] [] ["alice"] (GithubIssueResult.fetched ["alice"])
    rfl (by decide) (by decide) (by decide) rfl (by decide) rfl

/-- C8: the evaluation trace contains a delete of the row exactly when
the disqualification branch ran with a positive threshold and the
assignee removal succeeded; and when the executor finds an issue with
no assignees, the trace is empty: no upsert and no delete, leaving the
row for the next pass. -/
theorem c8_delete_iff_unassignment_success (cfg : Config) (now : Int)
    (issue : IssueRow) (pa : Option (List String))
    (evs : List ActivityEvent) (world : GithubIssueResult)
    (acts : List Action)
    (h : updateReminders cfg now issue pa (Except.ok evs) world =
        Except.ok acts) :
    (Action.delete issue.url ∈ acts ↔
      getAssigneesActivityForIssue pa issue evs = []
      ∧ 0 < cfg.unassignUserThreshold
      ∧ issue.deadline + cfg.unassignUserThreshold ≤ now
      ∧ (removeIdleAssignees issue world).2 = true)
    ∧ (getAssigneesActivityForIssue pa issue evs = [] →
        world = GithubIssueResult.fetched [] → acts = []) := by
  by_cases hact : getAssigneesActivityForIssue pa issue evs = []
  · rw [updateReminders_no_activity cfg now issue pa evs world hact] at h
    by_cases hd : issue.deadline + cfg.unassignUserThreshold ≤ now
    · rw [if_pos hd] at h
      injection h with h
      subst h
      refine ⟨?_, ?_⟩
      · rw [delete_mem_unassign_iff]
        constructor
        · rintro ⟨hp, hs⟩
          exact ⟨hact, hp, hd, hs⟩
        · rintro ⟨-, hp, -, hs⟩
          exact ⟨hp, hs⟩
      · intro _ hw
        subst hw
        exact unassign_nil_of_noassignees cfg issue
    · rw [if_neg hd] at h
      by_cases hr : issue.deadline + cfg.sendRemindersThreshold ≤ now
      · rw [if_pos hr] at h
        injection h with h
        subst h
        refine ⟨?_, ?_⟩
        · constructor
          · intro hm
            exact absurd hm
              (delete_not_mem_remind cfg now issue world issue.url)
          · rintro ⟨-, -, hdd, -⟩
            exact absurd hdd hd
        · intro _ hw
          subst hw
          exact remind_nil_of_noassignees cfg now issue
      · rw [if_neg hr] at h
        injection h with h
        subst h
        refine ⟨?_, ?_⟩
        · constructor
          · intro hm
            exact absurd hm (List.not_mem_nil _)
          · rintro ⟨-, -, hdd, -⟩
            exact absurd hdd hd
        · intro _ _
          rfl
  · rw [updateReminders_activity cfg now issue pa evs world hact] at h
    injection h with h
    subst h
    refine ⟨?_, ?_⟩
    · constructor
      · intro hm
        simp at hm
      · rintro ⟨hc, -⟩
        exact absurd hc hact
    · intro hc
      exact absurd hc hact

def c8cfg : Config := ⟨60, 30⟩

def c8issue : IssueRow := ⟨"https://github.com/o/r/issues/1", 0, 0, none⟩

/-- C8 witness: at now = 100 past the disqualify instant 60 with
assignee alice present, the trace is exactly a removal followed by the
delete, and the iff certifies the delete as a successful
unassignment. -/
theorem c8_delete_iff_unassignment_success_witness :
    (Action.delete c8issue.url ∈
        [Action.removeAssignees c8issue.url ["alice"],
          Action.delete c8issue.url] ↔
      getAssigneesActivityForIssue none c8issue [] = []
      ∧ 0 < c8cfg.unassignUserThreshold
      ∧ c8issue.deadline + c8cfg.unassignUserThreshold ≤ 100
      ∧ (removeIdleAssignees c8issue
          (GithubIssueResult.fetched ["alice"])).2 = true)
    ∧ (getAssigneesActivityForIssue none c8issue [] = [] →
        GithubIssueResult.fetched ["alice"] =
          GithubIssueResult.fetched [] →
        [Action.removeAssignees c8issue.url ["alice"],
          Action.delete c8issue.url] = []) :=
  c8_delete_iff_unassignment_success c8cfg 100 c8issue none []
    (GithubIssueResult.fetched ["alice"])
    [Action.removeAssignees c8issue.url ["alice"],
      Action.delete c8issue.url] rfl

end DaemonDisqualifier
